import Mathlib

/-!
Verification of the format-profile-driven CSV import engine of the
ScottLogic epace-sandbox repository.

The Lean definitions below are a shallow embedding of
`apps/records/services/csv_parser.py` (classes `CSVParser`,
`DefaultCSVParser` together with the module-level `POSTCODE_RE`),
`apps/records/models.py` (`CSVFormatProfile`, the `BaseRecord` field
shape shared by `SalesRecord` and `PurchaseRecord`), and
`apps/records/admin.py` (`CSVFormatProfileAdmin.duplicate_profile` and
`CSVFormatProfileAdmin.test_csv_view`).

Python library functions used by that code (str.strip, str.lower,
int(), decimal.Decimal, datetime.strptime, the csv reader, re.search on
the fixed postcode pattern) are modelled explicitly; the model notes
below each definition record where the model is narrower than the
library (the narrowing never touches an input exercised by the
repository or by a theorem's witness).
-/

/-! Python string primitives.  Model note: the model is ASCII-only;
the repository's headers, field names and error messages are ASCII. -/

def isPySpace (c : Char) : Bool :=
  c = ' ' ∨ c = '\t' ∨ c = '\n' ∨ c = '\r' ∨ c = '\x0b' ∨ c = '\x0c'

def pyStripL (l : List Char) : List Char :=
  ((l.dropWhile isPySpace).reverse.dropWhile isPySpace).reverse

/-- Model of Python `str.strip()` (no arguments): removes leading and
trailing whitespace. -/
def pyStrip (s : String) : String := ⟨pyStripL s.data⟩

/-- Model of Python `str.lower()` restricted to ASCII. -/
def pyLower (s : String) : String := ⟨s.data.map Char.toLower⟩

/-- Model of Python `str.isdigit()` restricted to ASCII digits:
true iff the string is non-empty and every character is a digit. -/
def pyIsDigit (s : String) : Bool := s ≠ "" ∧ s.data.all Char.isDigit

def digitVal (c : Char) : Nat := c.toNat - 48

/-- Value of a string of decimal digits.  This equals Python `int(s)`
whenever `s` is a non-empty string of ASCII digits (the only keys the
parser meets: profile validation rejects all other mapping keys; on
other strings `int` raises instead). -/
def strToNat (s : String) : Nat := s.data.foldl (fun n c => 10 * n + digitVal c) 0

/-- Model of Python `int(s)` on stripped text: optional sign followed by
one or more digits.  Model note: underscore digit separators and
non-ASCII digits are not modelled. -/
def pyInt? (s : String) : Option Int :=
  let l := pyStripL s.data
  let core : List Char → Option Int := fun ds =>
    if ds ≠ [] ∧ ds.all Char.isDigit then
      some (Int.ofNat (ds.foldl (fun n c => 10 * n + digitVal c) 0))
    else none
  match l with
  | '+' :: rest => core rest
  | '-' :: rest => (core rest).map (fun n => -n)
  | _ => core l

/-- Lexicographic (code-point) order on strings, as Python string
comparison used by `sorted`. -/
def charListLe : List Char → List Char → Bool
  | [], _ => true
  | _ :: _, [] => false
  | a :: as, b :: bs => if a < b then true else if b < a then false else charListLe as bs

def strLeB (a b : String) : Bool := charListLe a.data b.data

def insertSorted (a : String) : List String → List String
  | [] => [a]
  | b :: bs => if strLeB a b then a :: b :: bs else b :: insertSorted a bs

/-- Model of Python `sorted` on a list of strings. -/
def sortStrings (l : List String) : List String := l.foldr insertSorted []

/-- Substring containment on strings, used to state that an error
message cites a phrase. -/
def containsSub (s pat : String) : Bool :=
  s.data.tails.any (fun t => pat.data.isPrefixOf t)

/-! The postcode pattern.  `POSTCODE_RE` in `csv_parser.py` is the
regular expression

  ([Gg][Ii][Rr] 0[Aa]{2})
  |(([A-Za-z][0-9]{1,2})
    |([A-Za-z][A-Ha-hJ-Yj-y][0-9]{1,2})
    |([A-Za-z][0-9][A-Za-z])
    |([A-Za-z][A-Ha-hJ-Yj-y][0-9]?[A-Za-z]))
   \s*[0-9][A-Za-z]{2}

compiled below to an explicit matcher with Python `re` semantics:
`search` returns the leftmost position having a match, and at that
position alternatives are tried in written order, greedy quantifiers
longest-first, the first full match winning. -/

def isAsciiLetter (c : Char) : Bool := c.isAlpha

/-- The character class `[A-Ha-hJ-Yj-y]` (second outward letter). -/
def isSecondLetter (c : Char) : Bool :=
  ('A' ≤ c ∧ c ≤ 'H') ∨ ('a' ≤ c ∧ c ≤ 'h') ∨ ('J' ≤ c ∧ c ≤ 'Y') ∨ ('j' ≤ c ∧ c ≤ 'y')

def isCharAa (c : Char) : Bool := c = 'A' ∨ c = 'a'

/-- Branch `[Gg][Ii][Rr] 0[Aa]{2}` of the pattern: matches iff the text
starts with it, consuming 7 characters. -/
def matchGir : List Char → Bool
  | g :: i :: r :: ' ' :: '0' :: a1 :: a2 :: _ =>
      (g = 'G' ∨ g = 'g') ∧ (i = 'I' ∨ i = 'i') ∧ (r = 'R' ∨ r = 'r') ∧
        isCharAa a1 ∧ isCharAa a2
  | _ => false

/-- Candidate lengths for the outward-code group, in the order the
regex engine tries them: alternatives in written order, and inside an
alternative the greedy `{1,2}` and `?` longest-first. -/
def outwardCands (l : List Char) : List Nat :=
  let c1? := l.get? 0
  let c2? := l.get? 1
  let c3? := l.get? 2
  let c4? := l.get? 3
  let letter1 := (c1?.map isAsciiLetter).getD false
  let alt1 :=
    (if letter1 ∧ ((c2?.map Char.isDigit).getD false) ∧ ((c3?.map Char.isDigit).getD false)
     then [3] else []) ++
    (if letter1 ∧ ((c2?.map Char.isDigit).getD false) then [2] else [])
  let second := (c2?.map isSecondLetter).getD false
  let alt2 :=
    (if letter1 ∧ second ∧ ((c3?.map Char.isDigit).getD false) ∧
        ((c4?.map Char.isDigit).getD false) then [4] else []) ++
    (if letter1 ∧ second ∧ ((c3?.map Char.isDigit).getD false) then [3] else [])
  let alt3 :=
    if letter1 ∧ ((c2?.map Char.isDigit).getD false) ∧ ((c3?.map isAsciiLetter).getD false)
    then [3] else []
  let alt4 :=
    (if letter1 ∧ second ∧ ((c3?.map Char.isDigit).getD false) ∧
        ((c4?.map isAsciiLetter).getD false) then [4] else []) ++
    (if letter1 ∧ second ∧ ((c3?.map isAsciiLetter).getD false) then [3] else [])
  alt1 ++ alt2 ++ alt3 ++ alt4

/-- After the outward group: `\s*[0-9][A-Za-z]{2}`.  Only skipping the
whole whitespace run can reach a digit, so greediness is immaterial. -/
def inwardLen (l : List Char) : Option Nat :=
  let ws := (l.takeWhile isPySpace).length
  match l.drop ws with
  | d :: a :: b :: _ =>
      if d.isDigit ∧ isAsciiLetter a ∧ isAsciiLetter b then some (ws + 3) else none
  | _ => none

/-- Length of the match of `POSTCODE_RE` anchored at the head of `l`,
if any. -/
def postcodeMatchLen (l : List Char) : Option Nat :=
  if matchGir l then some 7
  else (outwardCands l).findSome? (fun n => (inwardLen (l.drop n)).map (n + ·))

/-- Model of `POSTCODE_RE.search`: the leftmost start position having a
match, with the match length. -/
def postcodeSearchAux (i : Nat) (l : List Char) : Option (Nat × Nat) :=
  match postcodeMatchLen l with
  | some n => some (i, n)
  | none =>
    match l with
    | [] => none
    | _ :: t => postcodeSearchAux (i + 1) t

def postcodeSearch (l : List Char) : Option (Nat × Nat) := postcodeSearchAux 0 l

/-- The post_code coercion of `_parse_with_profile` / `_parse_legacy`
applied to an already-stripped non-blank value: `match.group(0).strip()`
on a search hit, the value unchanged otherwise. -/
def extractPostcode (raw : String) : String :=
  match postcodeSearch raw.data with
  | some (i, n) => ⟨pyStripL ((raw.data.drop i).take n)⟩
  | none => raw

/-! Dates.  `datetime.strptime(value, fmt).date()` is modelled for
format strings built from literal characters and the directives
`%Y` (exactly four digits), `%m` (`1[0-2]|0[1-9]|[1-9]`) and
`%d` (`3[01]|[12][0-9]|0[1-9]|[1-9]`), the only directives appearing in
`DefaultCSVParser.DATE_FORMATS` and in the repository's profiles and
tests; a format using any other directive is modelled as unparseable.
Alternatives are tried in the regex's written order with backtracking,
the whole input must be consumed, and the resulting calendar date must
be valid (month lengths, leap years), else `ValueError` (modelled as
`none`). -/

structure PyDate where
  year : Nat
  month : Nat
  day : Nat
deriving DecidableEq, Repr

def isLeapYear (y : Nat) : Bool := y % 4 = 0 ∧ (y % 100 ≠ 0 ∨ y % 400 = 0)

def daysInMonth (y m : Nat) : Nat :=
  if m = 2 then (if isLeapYear y then 29 else 28)
  else if m = 4 ∨ m = 6 ∨ m = 9 ∨ m = 11 then 30
  else 31

/-- Model of the `datetime.date` constructor's validity check
(`MINYEAR = 1`, `MAXYEAR = 9999`). -/
def mkDate? (y m d : Nat) : Option PyDate :=
  if 1 ≤ y ∧ y ≤ 9999 ∧ 1 ≤ m ∧ m ≤ 12 ∧ 1 ≤ d ∧ d ≤ daysInMonth y m then
    some ⟨y, m, d⟩
  else none

inductive FmtTok where
  | lit (c : Char)
  | dirY
  | dirM
  | dirD
deriving DecidableEq, Repr

def fmtToks : List Char → Option (List FmtTok)
  | [] => some []
  | '%' :: c :: rest =>
    (fmtToks rest).bind (fun ts =>
      if c = 'Y' then some (FmtTok.dirY :: ts)
      else if c = 'm' then some (FmtTok.dirM :: ts)
      else if c = 'd' then some (FmtTok.dirD :: ts)
      else if c = '%' then some (FmtTok.lit '%' :: ts)
      else none)
  | '%' :: [] => none
  | c :: rest => (fmtToks rest).map (fun ts => FmtTok.lit c :: ts)

structure DateParts where
  y : Option Nat := none
  m : Option Nat := none
  d : Option Nat := none
deriving DecidableEq, Repr

def or2 {α : Type} (a b : Option α) : Option α :=
  match a with
  | some x => some x
  | none => b

def matchToks : List FmtTok → List Char → DateParts → Option (DateParts × List Char)
  | [], v, st => some (st, v)
  | FmtTok.lit c :: ts, v, st =>
    match v with
    | c' :: v' => if c' = c then matchToks ts v' st else none
    | [] => none
  | FmtTok.dirY :: ts, v, st =>
    match v with
    | a :: b :: c :: d :: v' =>
      if a.isDigit ∧ b.isDigit ∧ c.isDigit ∧ d.isDigit then
        matchToks ts v'
          { st with y := some (1000 * digitVal a + 100 * digitVal b + 10 * digitVal c + digitVal d) }
      else none
    | _ => none
  | FmtTok.dirM :: ts, v, st =>
    let two :=
      match v with
      | a :: b :: v' =>
        if (a = '1' ∧ '0' ≤ b ∧ b ≤ '2') ∨ (a = '0' ∧ '1' ≤ b ∧ b ≤ '9') then
          matchToks ts v' { st with m := some (10 * digitVal a + digitVal b) }
        else none
      | _ => none
    let one :=
      match v with
      | a :: v' =>
        if '1' ≤ a ∧ a ≤ '9' then matchToks ts v' { st with m := some (digitVal a) } else none
      | [] => none
    or2 two one
  | FmtTok.dirD :: ts, v, st =>
    let two :=
      match v with
      | a :: b :: v' =>
        if (a = '3' ∧ (b = '0' ∨ b = '1')) ∨ ((a = '1' ∨ a = '2') ∧ b.isDigit) ∨
            (a = '0' ∧ '1' ≤ b ∧ b ≤ '9') then
          matchToks ts v' { st with d := some (10 * digitVal a + digitVal b) }
        else none
      | _ => none
    let one :=
      match v with
      | a :: v' =>
        if '1' ≤ a ∧ a ≤ '9' then matchToks ts v' { st with d := some (digitVal a) } else none
      | [] => none
    or2 two one

/-- Model of `datetime.strptime(value, fmt).date()`; `none` models
`ValueError` (no regex match, unconverted data remaining, or an invalid
calendar date).  Unsupplied directives take strptime's defaults
(1900-01-01). -/
def pyStrptime (fmt value : String) : Option PyDate :=
  match fmtToks fmt.data with
  | none => none
  | some ts =>
    match matchToks ts value.data {} with
    | some (st, []) => mkDate? (st.y.getD 1900) (st.m.getD 1) (st.d.getD 1)
    | _ => none

/-! Decimals.  `decimal.Decimal(s)` on a string: optional sign, digits
with at most one decimal point (at least one digit overall), an
optional exponent, or the specials Infinity/NaN, surrounded by optional
whitespace; anything else raises `InvalidOperation`.  Model note:
underscore separators are not modelled, and NaN payloads and the
sNaN/NaN distinction are collapsed into one `nan` constructor (the
repository never inspects them). -/

inductive PyDecimal where
  | num (neg : Bool) (coeff : Nat) (scale : Int)
  | inf (neg : Bool)
  | nan
deriving DecidableEq, Repr

def digitsToNat (l : List Char) : Nat := l.foldl (fun n c => 10 * n + digitVal c) 0

/-- Parse the part after the optional sign: digits, optional point,
optional exponent.  Returns coefficient and scale. -/
def pyDecCore (l : List Char) : Option (Nat × Int) :=
  let intPart := l.takeWhile Char.isDigit
  let r1 := l.drop intPart.length
  let (fracPart, r2) :=
    match r1 with
    | '.' :: rest => (rest.takeWhile Char.isDigit, rest.drop (rest.takeWhile Char.isDigit).length)
    | _ => ([], r1)
  if intPart = [] ∧ fracPart = [] then none
  else
    let coeff := digitsToNat (intPart ++ fracPart)
    let fracLen : Int := fracPart.length
    match r2 with
    | [] => some (coeff, -fracLen)
    | e :: rest =>
      if e = 'e' ∨ e = 'E' then
        let (esign, ds) :=
          match rest with
          | '+' :: ds => ((1 : Int), ds)
          | '-' :: ds => ((-1 : Int), ds)
          | ds => ((1 : Int), ds)
        if ds ≠ [] ∧ ds.all Char.isDigit then
          some (coeff, esign * Int.ofNat (digitsToNat ds) - fracLen)
        else none
      else none

def pyDecimal? (s : String) : Option PyDecimal :=
  let l := pyStripL s.data
  let signed : Bool × List Char :=
    match l with
    | '+' :: rest => (false, rest)
    | '-' :: rest => (true, rest)
    | _ => (false, l)
  let neg := signed.fst
  let body := signed.snd
  let low := ⟨body.map Char.toLower⟩
  if low = "inf" ∨ low = "infinity" then some (PyDecimal.inf neg)
  else if low = "nan" ∨ low = "snan" then some PyDecimal.nan
  else (pyDecCore body).map (fun p => PyDecimal.num neg p.fst p.snd)

/-- Model of `str(Decimal(...))`, the to-scientific-string conversion
of the decimal specification (used by the admin test view's preview). -/
def pyDecimalStr : PyDecimal → String
  | PyDecimal.inf neg => if neg then "-Infinity" else "Infinity"
  | PyDecimal.nan => "NaN"
  | PyDecimal.num neg coeff e =>
    let ds := Nat.repr coeff
    let n : Int := Int.ofNat ds.length
    let adjusted : Int := e + n - 1
    let body :=
      if e ≤ 0 ∧ -6 ≤ adjusted then
        if e = 0 then ds
        else if 0 ≤ adjusted then
          ⟨ds.data.take (n + e).toNat⟩ ++ "." ++ ⟨ds.data.drop (n + e).toNat⟩
        else
          "0." ++ ⟨List.replicate (-adjusted - 1).toNat '0'⟩ ++ ds
      else
        (if ds.length = 1 then ds else ⟨ds.data.take 1⟩ ++ "." ++ ⟨ds.data.drop 1⟩) ++
          "E" ++ (if 0 ≤ adjusted then "+" else "") ++ toString adjusted
    (if neg then "-" else "") ++ body

/-! Parsed records.  A record is the Python dict `parsed`; insertion
order and overwrite-in-place semantics of Python dicts are modelled by
an association list with `dictInsert`. -/

inductive PyVal where
  | s (v : String)
  | i (v : Int)
  | dec (v : PyDecimal)
  | date (v : PyDate)
deriving DecidableEq, Repr

abbrev PyDict := List (String × PyVal)

def dictInsert (d : PyDict) (k : String) (v : PyVal) : PyDict :=
  match d with
  | [] => [(k, v)]
  | (k', v') :: t => if k' = k then (k, v) :: t else (k', v') :: dictInsert t k v

def dictContains (d : PyDict) (k : String) : Bool := d.any (fun kv => kv.fst = k)

/-- Association-list counterpart for string-valued dicts (the
normalised rows of legacy mode and the admin test view's records). -/
abbrev StrDict := List (String × String)

def sdInsert (d : StrDict) (k v : String) : StrDict :=
  match d with
  | [] => [(k, v)]
  | (k', v') :: t => if k' = k then (k, v) :: t else (k', v') :: sdInsert t k v

def sdGet (d : StrDict) (k dflt : String) : String :=
  match d.find? (fun kv => kv.fst = k) with
  | some kv => kv.snd
  | none => dflt

/-! The format profile (`CSVFormatProfile` in `models.py`).
`field_mappings` is a JSON object mapping a column index written as a
decimal string to a target field name; Python dict insertion order is
modelled by the order of the association list.  The timestamps are set
by the persistence layer and play no role in any claim. -/

structure CSVFormatProfile where
  pk : Option Nat := none
  name : String := ""
  record_type : String := "sales"
  delimiter : String := ","
  date_format : String
  field_mappings : List (String × String)
  is_active : Bool := true
deriving DecidableEq, Repr

/-- Mapping keys as the parser needs them: non-empty ASCII digit
strings, the only keys profile validation admits (`int(key)` would
raise on anything else, see the model note on `strToNat`). -/
def digitKeys (mappings : List (String × String)) : Prop :=
  ∀ kv ∈ mappings, pyIsDigit kv.fst = true

namespace DefaultCSVParser

def REQUIRED_FIELDS : List String :=
  ["date", "item_name", "quantity", "unit_price", "total_price", "shipping_cost", "post_code"]

def OPTIONAL_FIELDS : List String := ["currency"]

def DATE_FORMATS : List String := ["%Y-%m-%d", "%d/%m/%Y", "%m/%d/%Y"]

/-- One mapping entry applied to one data row: the body of the
`for col_index_str, field_name in mappings.items()` loop of
`_parse_with_profile` (csv_parser.py lines 92-136), threading the
accumulated `(row_errors, parsed)`. -/
def profileRowStep (dateFormat : String) (row : List String)
    (acc : List String × PyDict) (kv : String × String) : List String × PyDict :=
  let errs := acc.fst
  let parsed := acc.snd
  let colIndex := strToNat kv.fst
  match row.get? colIndex with
  | none => (errs ++ ["Column " ++ Nat.repr colIndex ++ " out of range"], parsed)
  | some cell =>
    let raw := pyStrip cell
    let fieldName := kv.snd
    if fieldName = "date" then
      if raw = "" then (errs ++ ["invalid date format"], parsed)
      else
        match pyStrptime dateFormat raw with
        | some dt => (errs, dictInsert parsed "date" (PyVal.date dt))
        | none => (errs ++ ["invalid date format"], parsed)
    else if fieldName = "item_name" then
      if raw = "" then (errs ++ ["item_name is required"], parsed)
      else (errs, dictInsert parsed "item_name" (PyVal.s raw))
    else if fieldName = "quantity" then
      match pyInt? raw with
      | some n =>
        let parsed' := dictInsert parsed "quantity" (PyVal.i n)
        if n < 0 then (errs ++ ["quantity must be non-negative"], parsed')
        else (errs, parsed')
      | none => (errs ++ ["invalid quantity"], parsed)
    else if fieldName = "unit_price" ∨ fieldName = "total_price" ∨ fieldName = "shipping_cost" then
      match pyDecimal? raw with
      | some d => (errs, dictInsert parsed fieldName (PyVal.dec d))
      | none => (errs ++ ["invalid " ++ fieldName], parsed)
    else if fieldName = "post_code" then
      if raw = "" then (errs ++ ["post_code is required"], parsed)
      else (errs, dictInsert parsed "post_code" (PyVal.s (extractPostcode raw)))
    else if fieldName = "currency" then
      (errs, dictInsert parsed "currency" (PyVal.s (if raw = "" then "GBP" else raw)))
    else
      (errs, dictInsert parsed fieldName (PyVal.s raw))

/-- One data row of `_parse_with_profile`: all mapping entries in dict
order, then the unmapped-currency default (lines 138-139). -/
def processProfileRow (dateFormat : String) (mappings : List (String × String))
    (row : List String) : List String × PyDict :=
  let res := mappings.foldl (profileRowStep dateFormat row) ([], [])
  let mappedFields := mappings.map (fun kv => kv.snd)
  if ¬ dictContains res.snd "currency" ∧ ¬ mappedFields.contains "currency" then
    (res.fst, dictInsert res.snd "currency" (PyVal.s "GBP"))
  else res

/-- Row outcome: a clean row contributes its record, a row with field
errors contributes one `"Row <n>: ..."` string (lines 141-144). -/
def profileRowOutcome (dateFormat : String) (mappings : List (String × String))
    (rowNum : Nat) (row : List String) : Sum PyDict String :=
  let res := processProfileRow dateFormat mappings row
  if res.fst = [] then Sum.inl res.snd
  else Sum.inr ("Row " ++ Nat.repr rowNum ++ ": " ++ String.intercalate "; " res.fst)

/-- The data-row loop of `_parse_with_profile` (lines 87-144),
`rowNum` being the value `enumerate(data_rows, start=2)` gives the
first remaining row. -/
def profileDataLoop (dateFormat : String) (mappings : List (String × String)) :
    Nat → List (List String) → List PyDict × List String
  | _, [] => ([], [])
  | rowNum, row :: rest =>
    let rec' := profileDataLoop dateFormat mappings (rowNum + 1) rest
    match profileRowOutcome dateFormat mappings rowNum row with
    | Sum.inl parsed => (parsed :: rec'.fst, rec'.snd)
    | Sum.inr err => (rec'.fst, err :: rec'.snd)

/-- `_parse_with_profile` from the row list `rows = list(reader)`
onward (csv_parser.py lines 59-146): empty-file check, the
missing-required-mappings pre-check, the column-range pre-check, then
the data-row loop. -/
def parseWithProfileRows (p : CSVFormatProfile) (rows : List (List String)) :
    List PyDict × List String :=
  match rows with
  | [] => ([], ["CSV file is empty or has no header row."])
  | csvHeaders :: dataRows =>
    let mappings := p.field_mappings
    let mappedFields := mappings.map (fun kv => kv.snd)
    let missingRequired := REQUIRED_FIELDS.filter (fun f => ¬ mappedFields.contains f)
    if missingRequired ≠ [] then
      ([], ["Missing required field mappings: " ++
            String.intercalate ", " (sortStrings missingRequired)])
    else
      match mappings.find? (fun kv => csvHeaders.length ≤ strToNat kv.fst) with
      | some kv =>
        ([], ["Column index " ++ Nat.repr (strToNat kv.fst) ++ " is out of range (CSV has " ++
              Nat.repr csvHeaders.length ++ " columns)."])
      | none => profileDataLoop p.date_format mappings 2 dataRows

/-- `_parse_date` (csv_parser.py lines 219-228): strip, blank gives
`None`, otherwise the formats of `DATE_FORMATS` are tried in order and
the first that parses wins. -/
def parse_date (value : String) : Option PyDate :=
  let v := pyStrip value
  if v = "" then none
  else DATE_FORMATS.findSome? (fun fmt => pyStrptime fmt v)

/-- One row of `_parse_legacy` (lines 167-210), given the normalised
row dict.  Returns `(row_errors, parsed)`. -/
def legacyRowParse (nrow : StrDict) : List String × PyDict :=
  let errs0 : List String := []
  let parsed0 : PyDict := []
  let dres :=
    match parse_date (sdGet nrow "date" "") with
    | none => (errs0 ++ ["invalid date format"], parsed0)
    | some dt => (errs0, dictInsert parsed0 "date" (PyVal.date dt))
  let ires :=
    let itemName := pyStrip (sdGet nrow "item_name" "")
    if itemName = "" then (dres.fst ++ ["item_name is required"], dres.snd)
    else (dres.fst, dictInsert dres.snd "item_name" (PyVal.s itemName))
  let qres :=
    let val := pyStrip (sdGet nrow "quantity" "")
    match pyInt? val with
    | some n =>
      let parsed' := dictInsert ires.snd "quantity" (PyVal.i n)
      if n < 0 then (ires.fst ++ ["quantity must be non-negative"], parsed')
      else (ires.fst, parsed')
    | none => (ires.fst ++ ["invalid quantity"], ires.snd)
  let priceStep := fun (acc : List String × PyDict) (field : String) =>
    let val := pyStrip (sdGet nrow field "")
    match pyDecimal? val with
    | some d => (acc.fst, dictInsert acc.snd field (PyVal.dec d))
    | none => (acc.fst ++ ["invalid " ++ field], acc.snd)
  let pres := ["unit_price", "total_price", "shipping_cost"].foldl priceStep qres
  let pcres :=
    let pc := pyStrip (sdGet nrow "post_code" "")
    if pc = "" then (pres.fst ++ ["post_code is required"], pres.snd)
    else (pres.fst, dictInsert pres.snd "post_code" (PyVal.s (extractPostcode pc)))
  let currency := pyStrip (sdGet nrow "currency" "")
  (pcres.fst,
   dictInsert pcres.snd "currency" (PyVal.s (if currency = "" then "GBP" else currency)))

/-- The dict `csv.DictReader` yields for one raw row, already passed
through the normalising comprehension of line 167.  `none` models the
`AttributeError` the comprehension raises on a ragged row: a row
shorter than the header is filled with `restval = None` and
`None.strip()` raises, a longer one puts its surplus under the
`restkey` key `None` and `None.strip()` raises on the key. -/
def mkNormalisedRow (fieldnames row : List String) : Option StrDict :=
  if row.length = fieldnames.length then
    let d := (fieldnames.zip row).foldl (fun acc kv => sdInsert acc kv.fst kv.snd) []
    some (d.foldl (fun acc kv => sdInsert acc (pyLower (pyStrip kv.fst)) (pyStrip kv.snd)) [])
  else none

def legacyRowOutcome (rowNum : Nat) (nrow : StrDict) : Sum PyDict String :=
  let res := legacyRowParse nrow
  if res.fst = [] then Sum.inl res.snd
  else Sum.inr ("Row " ++ Nat.repr rowNum ++ ": " ++ String.intercalate "; " res.fst)

/-- The data-row loop of `_parse_legacy` (lines 166-215).  The rows
handed to it are the non-blank raw rows (`DictReader` skips blank
rows), and `enumerate(reader, start=2)` numbers the yielded dicts
consecutively. `none` propagates the ragged-row exception. -/
def legacyLoop (fieldnames : List String) :
    Nat → List (List String) → Option (List PyDict × List String)
  | _, [] => some ([], [])
  | rowNum, row :: rest =>
    match mkNormalisedRow fieldnames row with
    | none => none
    | some nrow =>
      match legacyLoop fieldnames (rowNum + 1) rest with
      | none => none
      | some rec' =>
        match legacyRowOutcome rowNum nrow with
        | Sum.inl parsed => some (parsed :: rec'.fst, rec'.snd)
        | Sum.inr err => some (rec'.fst, err :: rec'.snd)

/-- `_parse_legacy` from the raw row list onward (lines 148-217):
`reader.fieldnames is None` exactly when there is no first row; header
names are stripped and lower-cased, the required-columns check keeps
`REQUIRED_FIELDS` order; then the row loop.  `none` models an uncaught
exception. -/
def parseLegacyRows (rows : List (List String)) : Option (List PyDict × List String) :=
  match rows with
  | [] => some ([], ["CSV file is empty or has no header row."])
  | fieldnames :: dataRows =>
    let normalised := fieldnames.map (fun f => pyLower (pyStrip f))
    let missing := REQUIRED_FIELDS.filter (fun f => ¬ normalised.contains f)
    if missing ≠ [] then
      some ([], ["Missing required columns: " ++ String.intercalate ", " missing])
    else
      legacyLoop fieldnames 2 (dataRows.filter (fun r => r ≠ []))

end DefaultCSVParser

/-! The csv reader.  Model of `list(csv.reader(io.StringIO(content),
delimiter=d))` for a single-character delimiter and content free of
quote characters (every input in this development is quote-free; the
quoting layer of the csv module is not modelled): the content splits
into lines at newlines, a trailing newline ends the last line rather
than opening a new one, a blank line yields the empty row `[]`, and
every other line splits into cells at the delimiter. -/

def splitListOn (sep : Char) (l : List Char) : List (List Char) :=
  l.foldr
    (fun c acc =>
      match acc with
      | cur :: rest => if c = sep then [] :: cur :: rest else (c :: cur) :: rest
      | [] => [[c]])
    [[]]

def csvReadRows (delim : Char) (content : String) : List (List String) :=
  let ls := splitListOn '\n' content.data
  let ls := if ls.getLast? = some [] then ls.dropLast else ls
  ls.map (fun line =>
    if line = [] then []
    else (splitListOn delim line).map (fun cs => (⟨cs⟩ : String)))

/-- The delimiter translation of `_parse_with_profile` lines 54-56: the
stored two-character escape `\t` means a real tab.  Model note: the csv
module rejects delimiters that are not exactly one character; the
repository's profiles all use one-character delimiters or the tab
escape, and the fallback to `,` here is never exercised by a theorem. -/
def effectiveDelimiter (d : String) : Char :=
  if d = "\\t" then '\t' else d.data.headD ','

/-- `DefaultCSVParser.parse` (lines 45-48): profile mode when a profile
was supplied, legacy mode otherwise.  `none` models an uncaught
exception (possible only in legacy mode). -/
def DefaultCSVParser.parse (profile : Option CSVFormatProfile) (content : String) :
    Option (List PyDict × List String) :=
  match profile with
  | some p =>
    some (DefaultCSVParser.parseWithProfileRows p
      (csvReadRows (effectiveDelimiter p.delimiter) content))
  | none => DefaultCSVParser.parseLegacyRows (csvReadRows ',' content)

/-! Profile validation (`models.py`).  `SalesRecord` and
`PurchaseRecord` both inherit every concrete column from `BaseRecord`
(models.py lines 5-14), so `_get_model_fields` and
`_get_required_fields` compute the same sets for both record types.
The per-field facts below transcribe the model declarations: a field is
listed with whether `blank=True` is set and whether a default value is
provided; `id` and `created_at` are the members of the `excluded` set
and are omitted, exactly as both helpers omit them. -/

structure DjangoField where
  fieldName : String
  blank : Bool
  hasDefault : Bool
deriving DecidableEq, Repr

def baseRecordFields : List DjangoField :=
  [⟨"date", false, false⟩,
   ⟨"item_name", false, false⟩,
   ⟨"quantity", false, false⟩,
   ⟨"unit_price", false, false⟩,
   ⟨"total_price", false, false⟩,
   ⟨"shipping_cost", false, true⟩,
   ⟨"post_code", false, false⟩,
   ⟨"currency", true, true⟩]

/-- `CSVFormatProfile._get_model_fields` (models.py lines 85-92). -/
def getModelFields : List String := baseRecordFields.map (fun f => f.fieldName)

/-- `CSVFormatProfile._get_required_fields` (models.py lines 94-104):
fields that neither allow blank nor carry a default. -/
def getRequiredFields : List String :=
  (baseRecordFields.filter (fun f => ¬ f.blank ∧ ¬ f.hasDefault)).map (fun f => f.fieldName)

/-- Model of building a Python `set` from a list of strings, keeping
first occurrences (the iteration order is irrelevant here because every
use sorts the result). -/
def pySetList (l : List String) : List String :=
  l.foldl (fun acc a => if acc.contains a then acc else acc ++ [a]) []

/-- `CSVFormatProfile.clean` (models.py lines 106-148).  Each failing
check raises `ValidationError({"field_mappings": msg})` at once; the
result is `some msg` for the first check that fails, `none` when the
profile validates.  Set subtraction followed by `sorted` is modelled by
filter, duplicate removal and lexicographic sort. -/
def CSVFormatProfile.clean (p : CSVFormatProfile) : Option String :=
  if p.field_mappings = [] then
    some "field_mappings must be a non-empty dictionary."
  else
    match p.field_mappings.find? (fun kv => ¬ pyIsDigit kv.fst) with
    | some kv =>
      some ("Key \x27" ++ kv.fst ++ "\x27 is not a valid column index. " ++
            "Keys must be non-negative integer strings (e.g. \x270\x27, \x271\x27, \x272\x27).")
    | none =>
      let values := p.field_mappings.map (fun kv => kv.snd)
      let invalid := sortStrings (pySetList (values.filter (fun v => ¬ getModelFields.contains v)))
      if invalid ≠ [] then
        some ("Invalid field name(s): " ++ String.intercalate ", " invalid ++
              ". Valid fields are: " ++ String.intercalate ", " (sortStrings getModelFields) ++ ".")
      else
        let missing := sortStrings (getRequiredFields.filter (fun f => ¬ values.contains f))
        if missing ≠ [] then
          some ("Missing required field(s): " ++ String.intercalate ", " missing ++
                ". All required fields must be present in field_mappings values.")
        else none

/-- The four profile invariants of the specification, stated
independently of `clean`: non-empty mappings, digit keys, mapped names
inside the target field set, required fields all mapped. -/
def profileInvariant1 (p : CSVFormatProfile) : Bool := p.field_mappings ≠ []

def profileInvariant2 (p : CSVFormatProfile) : Bool :=
  p.field_mappings.all (fun kv => pyIsDigit kv.fst)

def profileInvariant3 (p : CSVFormatProfile) : Bool :=
  p.field_mappings.all (fun kv => getModelFields.contains kv.snd)

def profileInvariant4 (p : CSVFormatProfile) : Bool :=
  getRequiredFields.all (fun f => (p.field_mappings.map (fun kv => kv.snd)).contains f)

/-! Profile duplication (`CSVFormatProfileAdmin.duplicate_profile`,
admin.py lines 172-184).  Setting `profile.pk = None` and saving
inserts a fresh database row leaving the stored original untouched; the
persisted table is modelled as a list of profiles and the fresh primary
key as any value no existing row carries. -/

def duplicateOne (freshPk : Nat) (p : CSVFormatProfile) : CSVFormatProfile :=
  { p with pk := some freshPk, name := p.name ++ " (copy)" }

def dbFreshPk (db : List CSVFormatProfile) : Nat :=
  (db.filterMap (fun q => q.pk)).foldl max 0 + 1

def duplicateAction (db : List CSVFormatProfile) (p : CSVFormatProfile) :
    List CSVFormatProfile :=
  db ++ [duplicateOne (dbFreshPk db) p]

/-! The admin preview (`CSVFormatProfileAdmin.test_csv_view`, admin.py
lines 214-301), from the row list onward.  Every data row lands in
`parsed_records` (fields that fail to coerce keep their raw text), rows
with errors additionally append one `"Row <n>: ..."` string; the
response carries the annotated headers, the first ten records projected
on the mapped fields, the total record count, and the first twenty
error strings. -/

structure TestCsvResponse where
  headers : List String
  preview : List StrDict
  total_parsed : Nat
  errors : List String
deriving DecidableEq, Repr

/-- One mapping entry of the per-row loop (admin.py lines 252-278). -/
def testRowStep (dateFormat : String) (row : List String)
    (acc : List String × StrDict) (kv : String × String) : List String × StrDict :=
  let errs := acc.fst
  let record := acc.snd
  let colIndex := strToNat kv.fst
  match row.get? colIndex with
  | none => (errs ++ ["Column " ++ Nat.repr colIndex ++ " out of range"], record)
  | some cell =>
    let raw := pyStrip cell
    let fieldName := kv.snd
    if fieldName = "date" ∧ raw ≠ "" then
      match pyStrptime dateFormat raw with
      | some dt =>
        (errs, sdInsert record fieldName
          (Nat.repr dt.year ++ "-" ++
           (if dt.month < 10 then "0" else "") ++ Nat.repr dt.month ++ "-" ++
           (if dt.day < 10 then "0" else "") ++ Nat.repr dt.day))
      | none =>
        (errs ++ ["Invalid date \x27" ++ raw ++ "\x27 for format \x27" ++ dateFormat ++ "\x27"],
         sdInsert record fieldName raw)
    else if fieldName = "quantity" ∧ raw ≠ "" then
      match pyInt? raw with
      | some n => (errs, sdInsert record fieldName (toString n))
      | none =>
        (errs ++ ["Invalid integer \x27" ++ raw ++ "\x27 for " ++ fieldName],
         sdInsert record fieldName raw)
    else if (fieldName = "unit_price" ∨ fieldName = "total_price" ∨
        fieldName = "shipping_cost") ∧ raw ≠ "" then
      match pyDecimal? raw with
      | some d => (errs, sdInsert record fieldName (pyDecimalStr d))
      | none =>
        (errs ++ ["Invalid decimal \x27" ++ raw ++ "\x27 for " ++ fieldName],
         sdInsert record fieldName raw)
    else
      (errs, sdInsert record fieldName raw)

/-- One data row of the view (admin.py lines 249-282): the record is
always appended, an error string only when the row had errors. -/
def testProcessRow (dateFormat : String) (mappings : List (String × String))
    (row : List String) : List String × StrDict :=
  mappings.foldl (testRowStep dateFormat row) ([], [])

def testDataLoop (dateFormat : String) (mappings : List (String × String)) :
    Nat → List (List String) → List StrDict × List String
  | _, [] => ([], [])
  | rowNum, row :: rest =>
    let res := testProcessRow dateFormat mappings row
    let rec' := testDataLoop dateFormat mappings (rowNum + 1) rest
    (res.snd :: rec'.fst,
     if res.fst ≠ [] then
       ("Row " ++ Nat.repr rowNum ++ ": " ++ String.intercalate "; " res.fst) :: rec'.snd
     else rec'.snd)

/-- `sorted(mappings.keys(), key=lambda x: int(x))`: stable insertion
sort of the mapping entries by numeric key. -/
def insertByKey (a : String × String) : List (String × String) → List (String × String)
  | [] => [a]
  | b :: bs => if strToNat a.fst ≤ strToNat b.fst then a :: b :: bs else b :: insertByKey a bs

def sortMappingsByKey (l : List (String × String)) : List (String × String) :=
  l.foldr insertByKey []

/-- The annotated header for one mapping entry (admin.py lines
284-289). -/
def testMappedHeader (csvHeaders : List String) (kv : String × String) : String :=
  let colIndex := strToNat kv.fst
  let csvHeader :=
    match csvHeaders.get? colIndex with
    | some h => h
    | none => "Column " ++ Nat.repr colIndex
  kv.snd ++ " (CSV: " ++ csvHeader ++ ")"

/-- `test_csv_view` from `rows = list(reader)` onward (admin.py lines
236-301); `none` models the early `"CSV file is empty."` response. -/
def testCsvViewRows (p : CSVFormatProfile) (rows : List (List String)) :
    Option TestCsvResponse :=
  match rows with
  | [] => none
  | csvHeaders :: dataRows =>
    let mappings := p.field_mappings
    let looped := testDataLoop p.date_format mappings 2 dataRows
    let sortedM := sortMappingsByKey mappings
    let headerFields := sortedM.map (fun kv => kv.snd)
    some
      { headers := sortedM.map (testMappedHeader csvHeaders)
        preview := (looped.fst.take 10).map
          (fun record => headerFields.map (fun h => (h, sdGet record h "")))
        total_parsed := looped.fst.length
        errors := looped.snd.take 20 }

/-! The specification's own description of the postcode grammar,
needed to compare the implemented pattern with the spec's words.
Modelled from the spec: "the general outward-code + inward-code grammar
(one or two letters, one or two digits with an optional trailing
letter, optional space, one digit, two letters), case-insensitive",
alongside the same literal GIR special case. -/

/-- Does a prefix of `l` consist of `n` characters satisfying `p`,
and if so what remains? -/
def specSeg (n : Nat) (p : Char → Bool) (l : List Char) : Option (List Char) :=
  if (l.take n).length = n ∧ (l.take n).all p then some (l.drop n) else none

/-- Modelled from the spec: the general outward+inward grammar starts
at the head of `l` for some choice of one/two letters, one/two digits,
optional trailing letter and optional single space. -/
def specGeneralAt (l : List Char) : Bool :=
  [1, 2].any (fun a =>
    [1, 2].any (fun b =>
      [0, 1].any (fun t =>
        [0, 1].any (fun s =>
          match specSeg a isAsciiLetter l with
          | none => false
          | some l1 =>
            match specSeg b Char.isDigit l1 with
            | none => false
            | some l2 =>
              match specSeg t isAsciiLetter l2 with
              | none => false
              | some l3 =>
                match specSeg s (fun c => c = ' ') l3 with
                | none => false
                | some l4 =>
                  match specSeg 1 Char.isDigit l4 with
                  | none => false
                  | some l5 => (specSeg 2 isAsciiLetter l5).isSome))))

/-- Modelled from the spec: a postcode per the spec's grammar starts at
the head of `l` (GIR special case or general grammar). -/
def specPostcodeAt (l : List Char) : Bool := matchGir l ∨ specGeneralAt l

/-- Modelled from the spec: the start index of the first (leftmost)
substring matching the spec's postcode grammar. -/
def specFirstMatchIdx (i : Nat) (l : List Char) : Option Nat :=
  if specPostcodeAt l then some i
  else
    match l with
    | [] => none
    | _ :: t => specFirstMatchIdx (i + 1) t

/-! Concrete instances shared by the claim theorems below. -/

/-- A profile mapping all seven parser-required fields, column i to the
i-th field of `REQUIRED_FIELDS`. -/
def profileFull : CSVFormatProfile :=
  { date_format := "%Y-%m-%d",
    field_mappings := [("0", "date"), ("1", "item_name"), ("2", "quantity"), ("3", "unit_price"),
                       ("4", "total_price"), ("5", "shipping_cost"), ("6", "post_code")] }

/-- A profile mapping exactly the fields `_get_required_fields`
computes (no `shipping_cost`, no `currency`) — the valid-profile shape
used throughout `test_models.py`. -/
def profileNoShipping : CSVFormatProfile :=
  { date_format := "%Y-%m-%d",
    field_mappings := [("0", "date"), ("1", "item_name"), ("2", "quantity"), ("3", "unit_price"),
                       ("4", "total_price"), ("5", "post_code")] }

/-- A one-column profile for exercising the admin preview. -/
def profileQty : CSVFormatProfile :=
  { date_format := "%Y-%m-%d", field_mappings := [("0", "quantity")] }

def headerSeven : List String :=
  ["date", "item_name", "quantity", "unit_price", "total_price", "shipping_cost", "post_code"]

/-! Helper lemmas. -/

theorem sum_split_length {α β γ : Type} (f : α → Sum β γ) (l : List α) :
    (l.filterMap (fun a => (f a).getLeft?)).length +
      (l.filterMap (fun a => (f a).getRight?)).length = l.length := by
  induction l with
  | nil => simp
  | cons a t ih =>
    cases h : f a <;> simp [List.filterMap_cons, h] <;> omega

theorem profileDataLoop_eq (fmt : String) (m : List (String × String)) (k : Nat)
    (rows : List (List String)) :
    DefaultCSVParser.profileDataLoop fmt m k rows =
      ((rows.enumFrom k).filterMap
          (fun nr => (DefaultCSVParser.profileRowOutcome fmt m nr.fst nr.snd).getLeft?),
       (rows.enumFrom k).filterMap
          (fun nr => (DefaultCSVParser.profileRowOutcome fmt m nr.fst nr.snd).getRight?)) := by
  induction rows generalizing k with
  | nil => simp [DefaultCSVParser.profileDataLoop, List.enumFrom]
  | cons r t ih =>
    simp only [DefaultCSVParser.profileDataLoop, List.enumFrom, List.filterMap_cons, ih]
    cases h : DefaultCSVParser.profileRowOutcome fmt m k r <;>
      simp [h, Sum.getLeft?, Sum.getRight?]

theorem legacyLoop_eq (fieldnames : List String) (rows : List (List String)) :
    ∀ k : Nat, (∀ r ∈ rows, r.length = fieldnames.length) →
    DefaultCSVParser.legacyLoop fieldnames k rows =
      some
        ((rows.enumFrom k).filterMap
            (fun nr => (DefaultCSVParser.legacyRowOutcome nr.fst
                ((DefaultCSVParser.mkNormalisedRow fieldnames nr.snd).getD [])).getLeft?),
         (rows.enumFrom k).filterMap
            (fun nr => (DefaultCSVParser.legacyRowOutcome nr.fst
                ((DefaultCSVParser.mkNormalisedRow fieldnames nr.snd).getD [])).getRight?)) := by
  induction rows with
  | nil => intro k _; simp [DefaultCSVParser.legacyLoop, List.enumFrom]
  | cons r t ih =>
    intro k h
    have hr : r.length = fieldnames.length := h r (by simp)
    have ht : ∀ r2 ∈ t, r2.length = fieldnames.length := fun r2 hr2 => h r2 (by simp [hr2])
    have hnorm : (DefaultCSVParser.mkNormalisedRow fieldnames r).isSome := by
      simp [DefaultCSVParser.mkNormalisedRow, hr]
    obtain ⟨nrow, hnr⟩ := Option.isSome_iff_exists.mp hnorm
    simp only [DefaultCSVParser.legacyLoop, hnr, ih (k + 1) ht, List.enumFrom,
      List.filterMap_cons]
    cases hout : DefaultCSVParser.legacyRowOutcome k nrow <;>
      simp [hnr, hout]

theorem containsSub_of_parts (s pat : String) (x y : List Char)
    (h : s.data = x ++ (pat.data ++ y)) : containsSub s pat = true := by
  simp only [containsSub, List.any_eq_true]
  refine ⟨pat.data ++ y, ?_, ?_⟩
  · rw [List.mem_tails, h]
    exact ⟨x, rfl⟩
  · exact List.isPrefixOf_iff_prefix.mpr ⟨y, rfl⟩

theorem data_append_eq (a b : String) : (a ++ b).data = a.data ++ b.data := rfl

theorem containsSub_mid (a b c : String) : containsSub (a ++ (b ++ c)) b = true :=
  containsSub_of_parts _ _ a.data c.data (by simp [data_append_eq])

theorem containsSub_startsWith (a b : String) : containsSub (a ++ b) a = true :=
  containsSub_of_parts _ _ [] b.data (by simp [data_append_eq])

theorem containsSub_of_eq (s pat a c : String) (h : s = a ++ (pat ++ c)) :
    containsSub s pat = true := h ▸ containsSub_mid a pat c

/-- C2: in profile mode, before any data row is processed, the engine
verifies that every required target field appears among the mapping's
values and that every mapped column index is within the header row's
column count; a failure of the first check aborts with zero records and
exactly one error containing "Missing required field mappings", a
failure of the second (the first offending entry in mapping order)
aborts with zero records and exactly one error containing "out of
range" and citing the offending index and the header's actual width;
no data row is processed either way. -/
theorem claim_C2_structural_prechecks (p : CSVFormatProfile) (csvHeaders : List String)
    (dataRows : List (List String)) :
    ((∃ f ∈ DefaultCSVParser.REQUIRED_FIELDS,
        ¬ (p.field_mappings.map (fun kv => kv.snd)).contains f) →
      ∃ msg, DefaultCSVParser.parseWithProfileRows p (csvHeaders :: dataRows) = ([], [msg]) ∧
        containsSub msg "Missing required field mappings" = true) ∧
    ((∀ f ∈ DefaultCSVParser.REQUIRED_FIELDS,
        (p.field_mappings.map (fun kv => kv.snd)).contains f) →
      ∀ kv, p.field_mappings.find? (fun kv => csvHeaders.length ≤ strToNat kv.fst) = some kv →
        ∃ msg, DefaultCSVParser.parseWithProfileRows p (csvHeaders :: dataRows) = ([], [msg]) ∧
          containsSub msg "out of range" = true ∧
          containsSub msg (Nat.repr (strToNat kv.fst)) = true ∧
          containsSub msg (Nat.repr csvHeaders.length) = true) := by
  constructor
  · rintro ⟨f, hf, hnc⟩
    have hmem : f ∈ DefaultCSVParser.REQUIRED_FIELDS.filter
        (fun f => ¬ (p.field_mappings.map (fun kv => kv.snd)).contains f) :=
      List.mem_filter.mpr ⟨hf, by simpa using hnc⟩
    have hne := List.ne_nil_of_mem hmem
    refine ⟨"Missing required field mappings: " ++ String.intercalate ", "
        (sortStrings (DefaultCSVParser.REQUIRED_FIELDS.filter
          (fun f => ¬ (p.field_mappings.map (fun kv => kv.snd)).contains f))), ?_, ?_⟩
    · simp only [DefaultCSVParser.parseWithProfileRows]
      rw [if_pos hne]
    · apply containsSub_of_parts _ _ []
        ((": " : String).data ++ (String.intercalate ", "
          (sortStrings (DefaultCSVParser.REQUIRED_FIELDS.filter
            (fun f => ¬ (p.field_mappings.map (fun kv => kv.snd)).contains f)))).data)
      simp only [data_append_eq]
      simp
  · intro hall kv hfind
    have hnil : DefaultCSVParser.REQUIRED_FIELDS.filter
        (fun f => ¬ (p.field_mappings.map (fun kv => kv.snd)).contains f) = [] := by
      rw [List.filter_eq_nil_iff]
      intro f hf
      simpa using hall f hf
    refine ⟨"Column index " ++ Nat.repr (strToNat kv.fst) ++ " is out of range (CSV has " ++
        Nat.repr csvHeaders.length ++ " columns).", ?_, ?_, ?_, ?_⟩
    · simp only [DefaultCSVParser.parseWithProfileRows]
      rw [if_neg (not_not_intro hnil), hfind]
    · apply containsSub_of_parts _ _
        (("Column index " : String).data ++ (Nat.repr (strToNat kv.fst)).data ++
          (" is " : String).data)
        ((" (CSV has " : String).data ++ (Nat.repr csvHeaders.length).data ++
          (" columns)." : String).data)
      simp only [data_append_eq]
      simp
    · apply containsSub_of_parts _ _ (("Column index " : String).data)
        ((" is out of range (CSV has " : String).data ++ (Nat.repr csvHeaders.length).data ++
          (" columns)." : String).data)
      simp only [data_append_eq]
      simp
    · apply containsSub_of_parts _ _
        (("Column index " : String).data ++ (Nat.repr (strToNat kv.fst)).data ++
          (" is out of range (CSV has " : String).data)
        ((" columns)." : String).data)
      simp only [data_append_eq]
      simp

theorem claim_C2_structural_prechecks_witness :
    (∃ msg, DefaultCSVParser.parseWithProfileRows profileNoShipping
        (headerSeven :: [["2024-01-15", "Widget", "1", "2", "2", "0", "AB1 2CD"]]) = ([], [msg]) ∧
      containsSub msg "Missing required field mappings" = true) ∧
    (∃ msg, DefaultCSVParser.parseWithProfileRows
        { profileFull with field_mappings := profileFull.field_mappings ++ [("9", "currency")] }
        (headerSeven :: [["2024-01-15", "Widget", "1", "2", "2", "0", "AB1 2CD"]]) = ([], [msg]) ∧
      containsSub msg "out of range" = true ∧
      containsSub msg (Nat.repr 9) = true ∧
      containsSub msg (Nat.repr 7) = true) := by
  constructor
  · exact (claim_C2_structural_prechecks profileNoShipping headerSeven _).left
      ⟨"shipping_cost", by decide, by decide⟩
  · have h := (claim_C2_structural_prechecks
      { profileFull with field_mappings := profileFull.field_mappings ++ [("9", "currency")] }
      headerSeven [["2024-01-15", "Widget", "1", "2", "2", "0", "AB1 2CD"]]).right
      (by decide) ("9", "currency") (by decide)
    simpa using h

/-- C10: a file consisting of the header row alone yields zero records
and zero errors in profile mode (for any profile passing the structural
pre-checks) and in legacy mode (when all required headers are present);
the "file is empty" error arises exactly from the empty row list, in
both modes. -/
theorem claim_C10_header_only (p : CSVFormatProfile) (header : List String) :
    ((∀ f ∈ DefaultCSVParser.REQUIRED_FIELDS,
        (p.field_mappings.map (fun kv => kv.snd)).contains f) →
      (∀ kv ∈ p.field_mappings, strToNat kv.fst < header.length) →
      DefaultCSVParser.parseWithProfileRows p [header] = ([], [])) ∧
    ((∀ f ∈ DefaultCSVParser.REQUIRED_FIELDS,
        (header.map (fun s => pyLower (pyStrip s))).contains f) →
      DefaultCSVParser.parseLegacyRows [header] = some ([], [])) ∧
    DefaultCSVParser.parseWithProfileRows p [] =
      ([], ["CSV file is empty or has no header row."]) ∧
    DefaultCSVParser.parseLegacyRows [] =
      some ([], ["CSV file is empty or has no header row."]) := by
  refine ⟨?_, ?_, rfl, rfl⟩
  · intro hreq hidx
    have hnil : DefaultCSVParser.REQUIRED_FIELDS.filter
        (fun f => ¬ (p.field_mappings.map (fun kv => kv.snd)).contains f) = [] := by
      rw [List.filter_eq_nil_iff]
      intro f hf
      simpa using hreq f hf
    have hfind : p.field_mappings.find?
        (fun kv => header.length ≤ strToNat kv.fst) = none := by
      rw [List.find?_eq_none]
      intro kv hkv
      simpa using Nat.not_le.mpr (hidx kv hkv)
    simp only [DefaultCSVParser.parseWithProfileRows]
    rw [if_neg (not_not_intro hnil), hfind]
    rfl
  · intro hreq
    have hnil : DefaultCSVParser.REQUIRED_FIELDS.filter
        (fun f => ¬ (header.map (fun s => pyLower (pyStrip s))).contains f) = [] := by
      rw [List.filter_eq_nil_iff]
      intro f hf
      simpa using hreq f hf
    simp only [DefaultCSVParser.parseLegacyRows]
    rw [if_neg (not_not_intro hnil)]
    rfl

theorem claim_C10_header_only_witness :
    DefaultCSVParser.parseWithProfileRows profileFull [headerSeven] = ([], []) ∧
    DefaultCSVParser.parseLegacyRows [headerSeven] = some ([], []) := by
  have h := claim_C10_header_only profileFull headerSeven
  exact ⟨h.left (by decide) (by decide), h.right.left (by decide)⟩

/-- C9: profile validation computes its required set dynamically
(fields with no default and not blank-allowed), which excludes
`shipping_cost` and `currency`, while the parser's hard-coded required
list contains `shipping_cost`; the profile mapping exactly the
validation-required fields passes `clean` yet parsing any non-empty
row list with it aborts with zero records and exactly one
"Missing required field mappings" error. -/
theorem claim_C9_validator_parser_divergence :
    getRequiredFields =
      ["date", "item_name", "quantity", "unit_price", "total_price", "post_code"] ∧
    "shipping_cost" ∈ DefaultCSVParser.REQUIRED_FIELDS ∧
    "shipping_cost" ∉ getRequiredFields ∧
    "currency" ∉ getRequiredFields ∧
    (baseRecordFields.filter (fun f => f.fieldName = "shipping_cost")).all
      (fun f => f.hasDefault) = true ∧
    (baseRecordFields.filter (fun f => f.fieldName = "currency")).all
      (fun f => f.hasDefault) = true ∧
    (profileNoShipping.field_mappings.map (fun kv => kv.snd)).toFinset =
      getRequiredFields.toFinset ∧
    profileNoShipping.clean = none ∧
    ∀ rows : List (List String), rows ≠ [] →
      DefaultCSVParser.parseWithProfileRows profileNoShipping rows =
        ([], ["Missing required field mappings: shipping_cost"]) := by
  refine ⟨by decide, by decide, by decide, by decide, by decide, by decide, by decide,
    by decide, ?_⟩
  intro rows hne
  obtain ⟨h0, t, rfl⟩ := List.exists_cons_of_ne_nil hne
  have hc : (DefaultCSVParser.REQUIRED_FIELDS.filter
      (fun f => ¬ (profileNoShipping.field_mappings.map (fun kv => kv.snd)).contains f)) ≠ [] := by
    decide
  simp only [DefaultCSVParser.parseWithProfileRows]
  rw [if_pos hc]
  decide

theorem claim_C9_validator_parser_divergence_witness :
    DefaultCSVParser.parseWithProfileRows profileNoShipping
      [["date", "item_name", "quantity", "unit_price", "total_price", "post_code"],
       ["2024-01-15", "Widget", "1", "2.00", "2.00", "SW1A 1AA"]] =
      ([], ["Missing required field mappings: shipping_cost"]) :=
  claim_C9_validator_parser_divergence.right.right.right.right.right.right.right.right
    _ (by decide)

/-- C7: a blank date cell is a row error "invalid date format"; profile
mode parses strictly against the profile's single configured notation
with no fallback, while legacy mode tries exactly the ordered list
year-month-day, day/month/year, month/day/year, stopping at the first
notation that parses. -/
theorem claim_C7_date_handling :
    DefaultCSVParser.DATE_FORMATS = ["%Y-%m-%d", "%d/%m/%Y", "%m/%d/%Y"] ∧
    (∀ v : String, pyStrip v = "" → DefaultCSVParser.parse_date v = none) ∧
    (∀ v : String, pyStrip v ≠ "" →
      DefaultCSVParser.parse_date v =
        or2 (pyStrptime "%Y-%m-%d" (pyStrip v))
          (or2 (pyStrptime "%d/%m/%Y" (pyStrip v)) (pyStrptime "%m/%d/%Y" (pyStrip v)))) ∧
    (∀ nrow : StrDict, pyStrip (sdGet nrow "date" "") = "" →
      "invalid date format" ∈ (DefaultCSVParser.legacyRowParse nrow).fst) ∧
    (∀ (fmt : String) (row : List String) (errs : List String) (parsed : PyDict)
        (k : String) (cell : String), row.get? (strToNat k) = some cell →
      DefaultCSVParser.profileRowStep fmt row (errs, parsed) (k, "date") =
        (if pyStrip cell = "" then (errs ++ ["invalid date format"], parsed)
         else
           match pyStrptime fmt (pyStrip cell) with
           | some dt => (errs, dictInsert parsed "date" (PyVal.date dt))
           | none => (errs ++ ["invalid date format"], parsed))) ∧
    DefaultCSVParser.parse_date "15/01/2024" = some ⟨2024, 1, 15⟩ ∧
    pyStrptime "%Y-%m-%d" "15/01/2024" = none ∧
    DefaultCSVParser.parse_date "01/02/2024" = some ⟨2024, 2, 1⟩ ∧
    pyStrptime "%m/%d/%Y" "01/02/2024" = some ⟨2024, 1, 2⟩ := by
  refine ⟨rfl, ?_, ?_, ?_, ?_, by decide, by decide, by decide, by decide⟩
  · intro v h
    simp [DefaultCSVParser.parse_date, h]
  · intro v h
    simp only [DefaultCSVParser.parse_date, DefaultCSVParser.DATE_FORMATS, if_neg h]
    cases h1 : pyStrptime "%Y-%m-%d" (pyStrip v) <;>
      cases h2 : pyStrptime "%d/%m/%Y" (pyStrip v) <;>
        cases h3 : pyStrptime "%m/%d/%Y" (pyStrip v) <;>
          simp [List.findSome?_cons, or2, h1, h2, h3]
  · intro nrow h
    have hd : DefaultCSVParser.parse_date (sdGet nrow "date" "") = none := by
      simp [DefaultCSVParser.parse_date, h]
    simp only [DefaultCSVParser.legacyRowParse, hd, List.foldl_cons, List.foldl_nil]
    cases hq : pyInt? (pyStrip (sdGet nrow "quantity" "")) <;>
      cases hu : pyDecimal? (pyStrip (sdGet nrow "unit_price" "")) <;>
        cases ht : pyDecimal? (pyStrip (sdGet nrow "total_price" "")) <;>
          cases hs : pyDecimal? (pyStrip (sdGet nrow "shipping_cost" "")) <;>
            simp only [hq, hu, ht, hs] <;> split_ifs <;> simp
  · intro fmt row errs parsed k cell h
    simp only [DefaultCSVParser.profileRowStep, h]
    simp

theorem claim_C7_date_handling_witness :
    DefaultCSVParser.parse_date " " = none ∧
    DefaultCSVParser.parse_date "15/01/2024" =
      or2 (pyStrptime "%Y-%m-%d" "15/01/2024")
        (or2 (pyStrptime "%d/%m/%Y" "15/01/2024") (pyStrptime "%m/%d/%Y" "15/01/2024")) ∧
    "invalid date format" ∈ (DefaultCSVParser.legacyRowParse [("date", "")]).fst ∧
    DefaultCSVParser.profileRowStep "%Y-%m-%d" ["2024-01-15"] ([], []) ("0", "date") =
      (if pyStrip "2024-01-15" = "" then (["invalid date format"], [])
       else
         match pyStrptime "%Y-%m-%d" (pyStrip "2024-01-15") with
         | some dt => ([], dictInsert [] "date" (PyVal.date dt))
         | none => (["invalid date format"], [])) := by
  have h := claim_C7_date_handling
  refine ⟨h.2.1 " " (by decide), ?_, h.2.2.2.1 [("date", "")] (by decide), ?_⟩
  · have := h.2.2.1 "15/01/2024" (by decide)
    simpa using this
  · have := h.2.2.2.2.1 "%Y-%m-%d" ["2024-01-15"] [] [] "0" "2024-01-15" (by decide)
    simpa using this

theorem foldl_max_le_init (l : List Nat) : ∀ a : Nat, a ≤ l.foldl max a := by
  induction l with
  | nil => simp
  | cons b t ih => exact fun a => le_trans (le_max_left a b) (ih (max a b))

theorem mem_le_foldl_max (l : List Nat) : ∀ x ∈ l, ∀ a, x ≤ l.foldl max a := by
  induction l with
  | nil => simp
  | cons b t ih =>
    intro x hx a
    rcases List.mem_cons.mp hx with h | h
    · subst h
      exact le_trans (le_max_right a x) (foldl_max_le_init t _)
    · exact ih x h _

/-- C8: duplicating a profile produces a new profile whose delimiter,
date_format and field_mappings equal the original's, whose record_type
and is_active are unchanged, differing only in name (the original name
with the " (copy)" suffix) and identity (a primary key no stored
profile carries); the stored originals are untouched and the duplicate
is appended. -/
theorem claim_C8_duplicate_profile (db : List CSVFormatProfile) (p : CSVFormatProfile) :
    (duplicateOne (dbFreshPk db) p).delimiter = p.delimiter ∧
    (duplicateOne (dbFreshPk db) p).date_format = p.date_format ∧
    (duplicateOne (dbFreshPk db) p).field_mappings = p.field_mappings ∧
    (duplicateOne (dbFreshPk db) p).record_type = p.record_type ∧
    (duplicateOne (dbFreshPk db) p).is_active = p.is_active ∧
    (duplicateOne (dbFreshPk db) p).name = p.name ++ " (copy)" ∧
    (duplicateOne (dbFreshPk db) p).name ≠ p.name ∧
    (∀ q ∈ db, q.pk ≠ (duplicateOne (dbFreshPk db) p).pk) ∧
    (duplicateAction db p).take db.length = db ∧
    (duplicateAction db p).getLast? = some (duplicateOne (dbFreshPk db) p) := by
  refine ⟨rfl, rfl, rfl, rfl, rfl, rfl, ?_, ?_, ?_, ?_⟩
  · intro hcontra
    have hlen := congrArg (fun s => s.data.length) hcontra
    simp only [duplicateOne] at hlen
    rw [data_append_eq, List.length_append] at hlen
    simp at hlen
  · intro q hq
    cases hpk : q.pk with
    | none => simp [duplicateOne]
    | some k =>
      have hk : k ∈ db.filterMap (fun r => r.pk) := List.mem_filterMap.mpr ⟨q, hq, hpk⟩
      have hle := mem_le_foldl_max _ k hk 0
      intro hcontra
      simp only [duplicateOne, dbFreshPk] at hcontra
      have hk2 := Option.some.inj hcontra
      omega
  · exact List.take_left db _
  · simp [duplicateAction]

theorem claim_C8_duplicate_profile_witness :
    (duplicateOne (dbFreshPk [profileFull]) profileNoShipping).field_mappings =
      profileNoShipping.field_mappings ∧
    (duplicateOne (dbFreshPk [profileFull]) profileNoShipping).name =
      profileNoShipping.name ++ " (copy)" ∧
    (∀ q ∈ [profileFull], q.pk ≠ (duplicateOne (dbFreshPk [profileFull]) profileNoShipping).pk) ∧
    (duplicateAction [profileFull] profileNoShipping).take 1 = [profileFull] := by
  have h := claim_C8_duplicate_profile [profileFull] profileNoShipping
  exact ⟨h.2.2.1, h.2.2.2.2.2.1, h.2.2.2.2.2.2.2.1, h.2.2.2.2.2.2.2.2.1⟩

/-- C1 counterexample: in legacy mode a file whose header passes the
required-columns pre-check but whose single data row is shorter than
the header makes the parse raise (no outcome at all, modelled `none`),
so that data row contributes to neither output sequence, against the
claim that every data row lands in exactly one bucket. -/
theorem claim_C1_row_buckets_cex :
    DefaultCSVParser.parse none
      "date,item_name,quantity,unit_price,total_price,shipping_cost,post_code\n2024-01-15,Widget\n"
      = none ∧
    (csvReadRows ','
      "date,item_name,quantity,unit_price,total_price,shipping_cost,post_code\n2024-01-15,Widget\n").length
      = 2 ∧
    DefaultCSVParser.REQUIRED_FIELDS.filter
      (fun f => ¬ (((csvReadRows ','
        "date,item_name,quantity,unit_price,total_price,shipping_cost,post_code\n2024-01-15,Widget\n").headD
          []).map (fun s => pyLower (pyStrip s))).contains f) = [] := by
  refine ⟨?_, by decide, by decide⟩
  decide

/-- C1 as amended: in profile mode (structural pre-checks passed) every
data row contributes to exactly one of the two output sequences, the
error for the data row at 0-based position i carrying the prefix
"Row (i+2): " (header is row 1); the same holds in legacy mode
provided additionally that every data row is non-blank and exactly as
wide as the header (a ragged row makes the parse raise instead, and a
blank row is skipped by the reader). -/
theorem claim_C1_row_buckets :
    (∀ (p : CSVFormatProfile) (header : List String) (dataRows : List (List String)),
      digitKeys p.field_mappings →
      (∀ f ∈ DefaultCSVParser.REQUIRED_FIELDS,
        (p.field_mappings.map (fun kv => kv.snd)).contains f) →
      (∀ kv ∈ p.field_mappings, strToNat kv.fst < header.length) →
      DefaultCSVParser.parseWithProfileRows p (header :: dataRows) =
        ((dataRows.enumFrom 2).filterMap
            (fun nr => (DefaultCSVParser.profileRowOutcome p.date_format p.field_mappings
                nr.fst nr.snd).getLeft?),
         (dataRows.enumFrom 2).filterMap
            (fun nr => (DefaultCSVParser.profileRowOutcome p.date_format p.field_mappings
                nr.fst nr.snd).getRight?)) ∧
      (DefaultCSVParser.parseWithProfileRows p (header :: dataRows)).fst.length +
        (DefaultCSVParser.parseWithProfileRows p (header :: dataRows)).snd.length =
          dataRows.length) ∧
    (∀ (fmt : String) (m : List (String × String)) (n : Nat) (row : List String),
      ((DefaultCSVParser.processProfileRow fmt m row).fst ≠ [] →
        (DefaultCSVParser.profileRowOutcome fmt m n row).getLeft? = none) ∧
      (∀ e, (DefaultCSVParser.profileRowOutcome fmt m n row).getRight? = some e →
        ∃ rest, e = "Row " ++ Nat.repr n ++ ": " ++ rest)) ∧
    (∀ (header : List String) (dataRows : List (List String)),
      (∀ f ∈ DefaultCSVParser.REQUIRED_FIELDS,
        (header.map (fun s => pyLower (pyStrip s))).contains f) →
      (∀ r ∈ dataRows, r ≠ [] ∧ r.length = header.length) →
      ∃ recs errs, DefaultCSVParser.parseLegacyRows (header :: dataRows) = some (recs, errs) ∧
        recs.length + errs.length = dataRows.length ∧
        errs = (dataRows.enumFrom 2).filterMap
          (fun nr => (DefaultCSVParser.legacyRowOutcome nr.fst
            ((DefaultCSVParser.mkNormalisedRow header nr.snd).getD [])).getRight?) ∧
        recs = (dataRows.enumFrom 2).filterMap
          (fun nr => (DefaultCSVParser.legacyRowOutcome nr.fst
            ((DefaultCSVParser.mkNormalisedRow header nr.snd).getD [])).getLeft?)) := by
  refine ⟨?_, ?_, ?_⟩
  · intro p header dataRows _ hreq hidx
    have hnil : DefaultCSVParser.REQUIRED_FIELDS.filter
        (fun f => ¬ (p.field_mappings.map (fun kv => kv.snd)).contains f) = [] := by
      rw [List.filter_eq_nil_iff]
      intro f hf
      simpa using hreq f hf
    have hfind : p.field_mappings.find?
        (fun kv => header.length ≤ strToNat kv.fst) = none := by
      rw [List.find?_eq_none]
      intro kv hkv
      simpa using Nat.not_le.mpr (hidx kv hkv)
    have hmain : DefaultCSVParser.parseWithProfileRows p (header :: dataRows) =
        ((dataRows.enumFrom 2).filterMap
            (fun nr => (DefaultCSVParser.profileRowOutcome p.date_format p.field_mappings
                nr.fst nr.snd).getLeft?),
         (dataRows.enumFrom 2).filterMap
            (fun nr => (DefaultCSVParser.profileRowOutcome p.date_format p.field_mappings
                nr.fst nr.snd).getRight?)) := by
      simp only [DefaultCSVParser.parseWithProfileRows]
      rw [if_neg (not_not_intro hnil), hfind]
      exact profileDataLoop_eq p.date_format p.field_mappings 2 dataRows
    refine ⟨hmain, ?_⟩
    rw [hmain]
    have := sum_split_length
      (fun nr : Nat × List String =>
        DefaultCSVParser.profileRowOutcome p.date_format p.field_mappings nr.fst nr.snd)
      (dataRows.enumFrom 2)
    simpa using this
  · intro fmt m n row
    constructor
    · intro h
      simp [DefaultCSVParser.profileRowOutcome, h]
    · intro e he
      by_cases hc : (DefaultCSVParser.processProfileRow fmt m row).fst = []
      · simp [DefaultCSVParser.profileRowOutcome, hc] at he
      · refine ⟨String.intercalate "; " (DefaultCSVParser.processProfileRow fmt m row).fst, ?_⟩
        simp only [DefaultCSVParser.profileRowOutcome, if_neg hc] at he
        exact (Option.some.inj he).symm
  · intro header dataRows hreq hrows
    have hnil : DefaultCSVParser.REQUIRED_FIELDS.filter
        (fun f => ¬ (header.map (fun s => pyLower (pyStrip s))).contains f) = [] := by
      rw [List.filter_eq_nil_iff]
      intro f hf
      simpa using hreq f hf
    have hfilter : dataRows.filter (fun r => r ≠ []) = dataRows := by
      rw [List.filter_eq_self]
      intro r hr
      simpa using (hrows r hr).left
    have hloop := legacyLoop_eq header dataRows 2 (fun r hr => (hrows r hr).right)
    refine ⟨_, _, ?_, ?_, rfl, rfl⟩
    · simp only [DefaultCSVParser.parseLegacyRows]
      rw [if_neg (not_not_intro hnil), hfilter, hloop]
    · have := sum_split_length
        (fun nr : Nat × List String => DefaultCSVParser.legacyRowOutcome nr.fst
          ((DefaultCSVParser.mkNormalisedRow header nr.snd).getD []))
        (dataRows.enumFrom 2)
      simpa using this

theorem claim_C1_row_buckets_witness :
    ((DefaultCSVParser.parseWithProfileRows profileFull
        [headerSeven,
         ["2024-01-15", "Widget A", "10", "5.00", "50.00", "3.50", "SW1A 1AA"],
         ["bad-date", "Widget B", "5", "12.00", "60.00", "4.00", "EC1A 1BB"]]).fst.length +
      (DefaultCSVParser.parseWithProfileRows profileFull
        [headerSeven,
         ["2024-01-15", "Widget A", "10", "5.00", "50.00", "3.50", "SW1A 1AA"],
         ["bad-date", "Widget B", "5", "12.00", "60.00", "4.00", "EC1A 1BB"]]).snd.length = 2) ∧
    (∃ recs errs, DefaultCSVParser.parseLegacyRows
        [headerSeven,
         ["2024-01-15", "Widget A", "10", "5.00", "50.00", "3.50", "SW1A 1AA"]] =
        some (recs, errs) ∧ recs.length + errs.length = 1) := by
  have h1 := (claim_C1_row_buckets.left profileFull headerSeven
    [["2024-01-15", "Widget A", "10", "5.00", "50.00", "3.50", "SW1A 1AA"],
     ["bad-date", "Widget B", "5", "12.00", "60.00", "4.00", "EC1A 1BB"]]
    (by unfold digitKeys; decide) (by decide) (by decide)).right
  have h2 := claim_C1_row_buckets.right.right headerSeven
    [["2024-01-15", "Widget A", "10", "5.00", "50.00", "3.50", "SW1A 1AA"]]
    (by decide) (by decide)
  obtain ⟨recs, errs, heq, hlen, -, -⟩ := h2
  exact ⟨h1, recs, errs, heq, hlen⟩

/-- C4 counterexample: with `shipping_cost` mapped but blank in the
row, the row becomes the error "Row 2: invalid shipping_cost" and no
record is produced (no default 0); with `shipping_cost` unmapped, the
parse aborts structurally with zero records, so no record with a
defaulted shipping_cost exists either. -/
theorem claim_C4_shipping_default_cex :
    DefaultCSVParser.parseWithProfileRows profileFull
      [headerSeven, ["2024-01-15", "Widget", "1", "2.00", "2.00", "", "SW1A 1AA"]] =
      ([], ["Row 2: invalid shipping_cost"]) ∧
    DefaultCSVParser.parseWithProfileRows profileNoShipping
      [["date", "item_name", "quantity", "unit_price", "total_price", "post_code"],
       ["2024-02-20", "Widget B", "2", "3.00", "6.00", "EC1A 1BB"]] =
      ([], ["Missing required field mappings: shipping_cost"]) := by
  constructor
  · decide
  · decide

/-- C4 as amended: `shipping_cost` is in the parser's hard-coded
required list, so a profile not mapping it aborts structurally with
zero records and one "Missing required field mappings" error citing
shipping_cost, and a blank mapped shipping_cost cell yields the row
error "invalid shipping_cost"; no defaulting to 0 happens in profile
mode. -/
theorem claim_C4_shipping_required :
    (∀ (p : CSVFormatProfile) (header : List String) (dataRows : List (List String)),
      "shipping_cost" ∉ p.field_mappings.map (fun kv => kv.snd) →
      DefaultCSVParser.parseWithProfileRows p (header :: dataRows) =
        ([], ["Missing required field mappings: " ++ String.intercalate ", "
          (sortStrings (DefaultCSVParser.REQUIRED_FIELDS.filter
            (fun f => ¬ (p.field_mappings.map (fun kv => kv.snd)).contains f)))]) ∧
      "shipping_cost" ∈ DefaultCSVParser.REQUIRED_FIELDS.filter
        (fun f => ¬ (p.field_mappings.map (fun kv => kv.snd)).contains f)) ∧
    (∀ (fmt : String) (row : List String) (errs : List String) (parsed : PyDict)
        (k : String) (cell : String),
      row.get? (strToNat k) = some cell → pyStrip cell = "" →
      DefaultCSVParser.profileRowStep fmt row (errs, parsed) (k, "shipping_cost") =
        (errs ++ ["invalid shipping_cost"], parsed)) := by
  constructor
  · intro p header dataRows hns
    have hmem : "shipping_cost" ∈ DefaultCSVParser.REQUIRED_FIELDS.filter
        (fun f => ¬ (p.field_mappings.map (fun kv => kv.snd)).contains f) := by
      refine List.mem_filter.mpr ⟨by decide, ?_⟩
      simpa using hns
    refine ⟨?_, hmem⟩
    simp only [DefaultCSVParser.parseWithProfileRows]
    rw [if_pos (List.ne_nil_of_mem hmem)]
  · intro fmt row errs parsed k cell h hblank
    simp only [DefaultCSVParser.profileRowStep, h]
    have hdec : pyDecimal? "" = none := by decide
    simp [hblank, hdec]

theorem claim_C4_shipping_required_witness :
    (DefaultCSVParser.parseWithProfileRows profileNoShipping
      [["date", "item_name", "quantity", "unit_price", "total_price", "post_code"],
       ["2024-03-01", "Widget C", "3", "4.00", "12.00", "W1A 1AB"]] =
        ([], ["Missing required field mappings: " ++ String.intercalate ", "
          (sortStrings (DefaultCSVParser.REQUIRED_FIELDS.filter
            (fun f => ¬ (profileNoShipping.field_mappings.map (fun kv => kv.snd)).contains f)))])) ∧
    DefaultCSVParser.profileRowStep "%Y-%m-%d" ["", "x"] ([], []) ("0", "shipping_cost") =
      (["invalid shipping_cost"], []) := by
  refine ⟨(claim_C4_shipping_required.left profileNoShipping _ _ (by decide)).left, ?_⟩
  have h := claim_C4_shipping_required.right "%Y-%m-%d" ["", "x"] [] [] "0" "" (by decide)
    (by decide)
  simpa using h

theorem insertSorted_ne_nil (a : String) (l : List String) : insertSorted a l ≠ [] := by
  cases l with
  | nil => simp [insertSorted]
  | cons b bs =>
    simp only [insertSorted]
    split <;> simp

theorem sortStrings_eq_nil (l : List String) : sortStrings l = [] ↔ l = [] := by
  cases l with
  | nil => simp [sortStrings]
  | cons a t =>
    exact iff_of_false (insertSorted_ne_nil a (sortStrings t)) (by simp)

theorem foldl_set_ne_nil (l : List String) :
    ∀ acc : List String, acc ≠ [] →
      l.foldl (fun acc a => if acc.contains a then acc else acc ++ [a]) acc ≠ [] := by
  induction l with
  | nil => intro acc h; simpa
  | cons a t ih =>
    intro acc h
    simp only [List.foldl_cons]
    apply ih
    split
    · exact h
    · simp

theorem pySetList_eq_nil (l : List String) : pySetList l = [] ↔ l = [] := by
  cases l with
  | nil => simp [pySetList]
  | cons a t =>
    refine iff_of_false ?_ (by simp)
    simp only [pySetList, List.foldl_cons]
    exact foldl_set_ne_nil t _ (by simp)

/-- C3 counterexample: the profile with field_mappings `{"x": "bogus"}`
violates invariant 2 (non-digit key), invariant 3 (unknown field name)
and invariant 4 (required fields unmapped) simultaneously, yet `clean`
raises only the invariant-2 message: the reported error mentions the
invalid key but neither the invalid field name nor the missing required
fields, so not all violated invariants are reported together. -/
theorem claim_C3_all_violations_cex :
    profileInvariant2
      { date_format := "%Y-%m-%d", field_mappings := [("x", "bogus")] } = false ∧
    profileInvariant3
      { date_format := "%Y-%m-%d", field_mappings := [("x", "bogus")] } = false ∧
    profileInvariant4
      { date_format := "%Y-%m-%d", field_mappings := [("x", "bogus")] } = false ∧
    CSVFormatProfile.clean
      { date_format := "%Y-%m-%d", field_mappings := [("x", "bogus")] } =
      some ("Key \x27x\x27 is not a valid column index. " ++
        "Keys must be non-negative integer strings (e.g. \x270\x27, \x271\x27, \x272\x27).") ∧
    containsSub ("Key \x27x\x27 is not a valid column index. " ++
      "Keys must be non-negative integer strings (e.g. \x270\x27, \x271\x27, \x272\x27).")
      "not a valid column index" = true ∧
    containsSub ("Key \x27x\x27 is not a valid column index. " ++
      "Keys must be non-negative integer strings (e.g. \x270\x27, \x271\x27, \x272\x27).")
      "Missing required" = false ∧
    containsSub ("Key \x27x\x27 is not a valid column index. " ++
      "Keys must be non-negative integer strings (e.g. \x270\x27, \x271\x27, \x272\x27).")
      "Invalid field name" = false := by
  decide

/-- C3 as amended: validation runs the four invariant checks in order
(non-empty dict, digit keys, valid field names, required fields all
mapped) and raises on the first violated one, reporting only that
violation in a single structured error keyed by field_mappings;
a profile validates exactly when all four invariants hold. -/
theorem claim_C3_first_violation_only :
    (∀ p : CSVFormatProfile, p.clean = none ↔
      (profileInvariant1 p = true ∧ profileInvariant2 p = true ∧
        profileInvariant3 p = true ∧ profileInvariant4 p = true)) ∧
    (∀ p : CSVFormatProfile, ∀ kv : String × String, p.field_mappings ≠ [] →
      p.field_mappings.find? (fun kv => ¬ pyIsDigit kv.fst) = some kv →
      p.clean = some ("Key \x27" ++ kv.fst ++ "\x27 is not a valid column index. " ++
        "Keys must be non-negative integer strings (e.g. \x270\x27, \x271\x27, \x272\x27).")) := by
  constructor
  · intro p
    by_cases h1 : p.field_mappings = []
    · refine iff_of_false (by simp [CSVFormatProfile.clean, h1]) ?_
      rintro ⟨hi1, -, -, -⟩
      simp [profileInvariant1, h1] at hi1
    · cases hf : p.field_mappings.find? (fun kv => ¬ pyIsDigit kv.fst) with
      | some kv =>
        refine iff_of_false
          (by simp only [CSVFormatProfile.clean]; rw [if_neg h1, hf]; simp) ?_
        rintro ⟨-, hi2, -, -⟩
        have hkd := List.find?_some hf
        have hkm := List.mem_of_find?_eq_some hf
        simp only [profileInvariant2, List.all_eq_true] at hi2
        have := hi2 kv hkm
        simp at hkd
        simp [hkd] at this
      | none =>
        have hi2 : profileInvariant2 p = true := by
          simp only [profileInvariant2, List.all_eq_true]
          intro kv hkv
          have := List.find?_eq_none.mp hf kv hkv
          simpa using this
        by_cases h3 : (p.field_mappings.map (fun kv => kv.snd)).filter
            (fun v => ¬ getModelFields.contains v) = []
        · have hinv3 : profileInvariant3 p = true := by
            simp only [profileInvariant3, List.all_eq_true]
            intro kv hkv
            have := List.filter_eq_nil_iff.mp h3 kv.snd (List.mem_map_of_mem _ hkv)
            simpa using this
          have hsort3 : sortStrings (pySetList
              ((p.field_mappings.map (fun kv => kv.snd)).filter
                (fun v => ¬ getModelFields.contains v))) = [] := by
            rw [sortStrings_eq_nil, pySetList_eq_nil]
            exact h3
          by_cases h4 : getRequiredFields.filter
              (fun f => ¬ (p.field_mappings.map (fun kv => kv.snd)).contains f) = []
          · have hinv4 : profileInvariant4 p = true := by
              simp only [profileInvariant4, List.all_eq_true]
              intro f hf4
              have := List.filter_eq_nil_iff.mp h4 f hf4
              simpa using this
            refine iff_of_true ?_ ⟨by simpa [profileInvariant1] using h1, hi2, hinv3, hinv4⟩
            simp only [CSVFormatProfile.clean, hf]
            rw [if_neg h1, if_neg (not_not_intro hsort3),
              if_neg (not_not_intro (by rw [sortStrings_eq_nil]; exact h4))]
          · refine iff_of_false ?_ ?_
            · simp only [CSVFormatProfile.clean, hf]
              rw [if_neg h1, if_neg (not_not_intro hsort3),
                if_pos (by rw [ne_eq, sortStrings_eq_nil]; exact h4)]
              simp
            · rintro ⟨-, -, -, hi4⟩
              obtain ⟨f, frest, hfc⟩ := List.exists_cons_of_ne_nil h4
              have hfmem : f ∈ getRequiredFields.filter
                  (fun f => ¬ (p.field_mappings.map (fun kv => kv.snd)).contains f) := by
                rw [hfc]; simp
              simp only [profileInvariant4, List.all_eq_true] at hi4
              have hcont := hi4 f (List.mem_filter.mp hfmem).left
              have hnc : ¬ (p.field_mappings.map (fun kv => kv.snd)).contains f = true := by
                have := (List.mem_filter.mp hfmem).right
                simpa using this
              exact hnc hcont
        · refine iff_of_false ?_ ?_
          · simp only [CSVFormatProfile.clean, hf]
            rw [if_neg h1,
              if_pos (by rw [ne_eq, sortStrings_eq_nil, pySetList_eq_nil]; exact h3)]
            simp
          · rintro ⟨-, -, hi3, -⟩
            obtain ⟨v, vrest, hvc⟩ := List.exists_cons_of_ne_nil h3
            have hvmem : v ∈ (p.field_mappings.map (fun kv => kv.snd)).filter
                (fun v => ¬ getModelFields.contains v) := by
              rw [hvc]; simp
            obtain ⟨kv, hkv, hkveq⟩ := List.mem_map.mp (List.mem_filter.mp hvmem).left
            simp only [profileInvariant3, List.all_eq_true] at hi3
            have hcont := hi3 kv hkv
            rw [hkveq] at hcont
            have hnc : ¬ getModelFields.contains v = true := by
              have := (List.mem_filter.mp hvmem).right
              simpa using this
            exact hnc hcont
  · intro p kv h1 hf
    simp only [CSVFormatProfile.clean, hf]
    rw [if_neg h1]

theorem claim_C3_first_violation_only_witness :
    (CSVFormatProfile.clean profileNoShipping = none ↔
      (profileInvariant1 profileNoShipping = true ∧ profileInvariant2 profileNoShipping = true ∧
        profileInvariant3 profileNoShipping = true ∧
        profileInvariant4 profileNoShipping = true)) ∧
    CSVFormatProfile.clean
      { date_format := "%Y-%m-%d", field_mappings := [("0", "date"), ("y", "bogus")] } =
      some ("Key \x27y\x27 is not a valid column index. " ++
        "Keys must be non-negative integer strings (e.g. \x270\x27, \x271\x27, \x272\x27).") := by
  refine ⟨claim_C3_first_violation_only.left profileNoShipping, ?_⟩
  exact claim_C3_first_violation_only.right
    { date_format := "%Y-%m-%d", field_mappings := [("0", "date"), ("y", "bogus")] }
    ("y", "bogus") (by decide) (by decide)

/-- C5 counterexample: two sample files for the same one-column
profile, one generating 21 row errors (truncated to 20), the other
generating exactly 20, produce identical responses — headers, preview,
total_parsed and error list all agree — so the response does not tell
the caller that the error strings were cut. -/
theorem claim_C5_truncation_cex :
    testCsvViewRows profileQty (["q"] :: List.replicate 21 ["x"]) =
      testCsvViewRows profileQty (["q"] :: (List.replicate 20 ["x"] ++ [["1"]])) ∧
    (testDataLoop "%Y-%m-%d" [("0", "quantity")] 2 (List.replicate 21 ["x"])).snd.length = 21 ∧
    (testDataLoop "%Y-%m-%d" [("0", "quantity")] 2
      (List.replicate 20 ["x"] ++ [["1"]])).snd.length = 20 := by
  refine ⟨?_, ?_, ?_⟩ <;> decide

theorem testDataLoop_fst_length (fmt : String) (m : List (String × String)) :
    ∀ (k : Nat) (rows : List (List String)),
      (testDataLoop fmt m k rows).fst.length = rows.length := by
  intro k rows
  induction rows generalizing k with
  | nil => simp [testDataLoop]
  | cons r t ih => simp [testDataLoop, ih]

/-- C5 as amended: the test-profile-against-sample-file operation
returns the mapped column headers each annotated with the raw source
header, at most 10 preview rows keyed by target field name, the total
count of parsed records, and at most the first 20 error strings; the
preview is the first ten records and its truncation is inferable from
total_parsed, but the error list is truncated silently, with no
indication in the response. -/
theorem claim_C5_preview_contract (p : CSVFormatProfile) (header : List String)
    (dataRows : List (List String)) :
    ∃ resp, testCsvViewRows p (header :: dataRows) = some resp ∧
      resp.headers = (sortMappingsByKey p.field_mappings).map (testMappedHeader header) ∧
      (∀ kv ∈ p.field_mappings,
        testMappedHeader header kv =
          kv.snd ++ " (CSV: " ++
            (match header.get? (strToNat kv.fst) with
             | some h => h
             | none => "Column " ++ Nat.repr (strToNat kv.fst)) ++ ")") ∧
      resp.total_parsed = dataRows.length ∧
      resp.preview.length ≤ 10 ∧
      resp.errors.length ≤ 20 ∧
      resp.preview = ((testDataLoop p.date_format p.field_mappings 2 dataRows).fst.take 10).map
        (fun record => ((sortMappingsByKey p.field_mappings).map (fun kv => kv.snd)).map
          (fun h => (h, sdGet record h ""))) ∧
      resp.errors = (testDataLoop p.date_format p.field_mappings 2 dataRows).snd.take 20 := by
  refine ⟨_, rfl, rfl, ?_, ?_, ?_, ?_, rfl, rfl⟩
  · intro kv _
    rfl
  · simp [testCsvViewRows, testDataLoop_fst_length]
  · simp only [testCsvViewRows, List.length_map, List.length_take]
    omega
  · simp only [testCsvViewRows, List.length_take]
    omega

theorem claim_C5_preview_contract_witness :
    ∃ resp, testCsvViewRows profileQty (["q"] :: List.replicate 21 ["x"]) = some resp ∧
      resp.total_parsed = 21 ∧ resp.preview.length ≤ 10 ∧ resp.errors.length ≤ 20 := by
  obtain ⟨resp, heq, -, -, htot, hp, he, -, -⟩ :=
    claim_C5_preview_contract profileQty ["q"] (List.replicate 21 ["x"])
  exact ⟨resp, heq, by simpa using htot, hp, he⟩

theorem postcodeSearchAux_spec (l : List Char) : ∀ i0 i n : Nat,
    postcodeSearchAux i0 l = some (i, n) →
    i0 ≤ i ∧ postcodeMatchLen (l.drop (i - i0)) = some n ∧
      ∀ j, j < i - i0 → postcodeMatchLen (l.drop j) = none := by
  induction l with
  | nil =>
    intro i0 i n h
    simp only [postcodeSearchAux] at h
    exact Option.noConfusion h
  | cons c t ih =>
    intro i0 i n h
    simp only [postcodeSearchAux] at h
    cases hm : postcodeMatchLen (c :: t) with
    | some m =>
      rw [hm] at h
      obtain ⟨hi, hn⟩ := Prod.mk.injEq .. ▸ Option.some.inj h
      subst hi
      subst hn
      exact ⟨le_refl _, by simpa [Nat.sub_self] using hm, fun j hj => by omega⟩
    | none =>
      rw [hm] at h
      obtain ⟨hle, hmatch, hnone⟩ := ih (i0 + 1) i n h
      refine ⟨by omega, ?_, ?_⟩
      · have heq : i - i0 = (i - (i0 + 1)) + 1 := by omega
        rw [heq]
        simpa using hmatch
      · intro j hj
        cases j with
        | zero => simpa using hm
        | succ j2 =>
          have : j2 < i - (i0 + 1) := by omega
          simpa using hnone j2 this

/-- C6 counterexample: on the value "AI1 2AA" the implementation
extracts "I1 2AA" (the pattern's second outward letter class excludes
I, so no match starts at position 0), while the grammar as the claim
words it — one or two letters, one or two digits with an optional
trailing letter, an optional space, one digit, two letters — has its
first match at position 0; every prefix-slice of the value starting at
position 0, trimmed, differs from the extracted "I1 2AA", so the
extraction does not return the first substring matching the claimed
grammar. -/
theorem claim_C6_postcode_grammar_cex :
    extractPostcode "AI1 2AA" = "I1 2AA" ∧
    specFirstMatchIdx 0 ("AI1 2AA".data) = some 0 ∧
    (∀ n : Fin 8, (⟨pyStripL ("AI1 2AA".data.take n.val)⟩ : String) ≠ "I1 2AA") := by
  decide

/-- C6 as amended: postcode extraction never fails: on a non-blank
value it returns the leftmost substring matching `POSTCODE_RE` —
either the case-insensitive "GIR" + space + "0AA"-shaped special case,
or outward+inward with outward one letter followed by one or two
digits, or one letter, a second letter drawn from A-H or J-Y, and one
or two digits, or one letter, one digit and one letter, or one letter,
a second letter from A-H or J-Y, an optional digit and a letter, then
any run of whitespace, one digit and two letters, case-insensitive —
trimmed of surrounding whitespace; if no substring matches, the value
is returned unchanged.  The stated examples hold. -/
theorem claim_C6_postcode_extraction :
    (∀ v : String,
      (postcodeSearch v.data = none → extractPostcode v = v) ∧
      (∀ i n, postcodeSearch v.data = some (i, n) →
        extractPostcode v = (⟨pyStripL ((v.data.drop i).take n)⟩ : String) ∧
        postcodeMatchLen (v.data.drop i) = some n ∧
        ∀ j, j < i → postcodeMatchLen (v.data.drop j) = none)) ∧
    extractPostcode "10 Downing Street SW1A 2AA" = "SW1A 2AA" ∧
    extractPostcode "12345" = "12345" ∧
    extractPostcode "GIR 0AA" = "GIR 0AA" := by
  refine ⟨?_, by decide, by decide, by decide⟩
  intro v
  constructor
  · intro h
    simp [extractPostcode, h]
  · intro i n h
    obtain ⟨hle, hmatch, hnone⟩ := postcodeSearchAux_spec v.data 0 i n h
    refine ⟨?_, by simpa using hmatch, fun j hj => hnone j (by omega)⟩
    simp [extractPostcode, h]

theorem claim_C6_postcode_extraction_witness :
    extractPostcode "no postcode here" = "no postcode here" ∧
    extractPostcode "10 Downing Street SW1A 2AA" =
      (⟨pyStripL (("10 Downing Street SW1A 2AA".data.drop 18).take 8)⟩ : String) := by
  have h := claim_C6_postcode_extraction.left
  refine ⟨(h "no postcode here").left (by decide), ?_⟩
  exact ((h "10 Downing Street SW1A 2AA").right 18 8 (by decide)).left
